import Mathlib

/-!
Verification development for the route lineage classifier of the
`new_routes` repository (`src/scripts/main.py`, class `RouteAnalyzer`).

The working dataset (one pandas DataFrame row per route record) is
embedded as a `List Route`.  Dates are embedded as `Option Nat`
(`none` models pandas `NaT`, the result of `pd.to_datetime(_,
errors='coerce')` on unparsable text; a parsed date `YYYY-MM-DD` is
encoded as the monotone code `y * 10000 + m * 100 + d`).  The numeric
route-id suffix extraction `str.replace('М_', '').astype('uint32')`
is embedded as removal of every occurrence of the two-character
substring `М_` followed by an all-digit parse bounded by `2 ^ 32`;
a parse failure models the `ValueError`/`OverflowError` raised by
`astype`, which aborts `prepare_data` (embedded as `Except.error`).
-/

/-- One row of the working dataset, after `prepare_data`.  Field names
follow the DataFrame column names of the source. -/
structure Route where
  text_route_number : String
  text_route_number_count : Int
  route_month : Int
  route_year : Int
  teu : Int
  route_min_date : Option Nat
  type_of_transportation : String
  departure_station_code_of_rf : String
  destination_station_code_of_rf : String
  payer_of_the_railway_tariff_unified : String
  shipper_okpo : String
  consignee_okpo : String
  departure_station_of_the_rf : String
  rf_destination_station : String
  shipper_by_puzt : String
  consignee_by_puzt : String
  category_route : String
  old_text_route_number : Option String
  changed_field : Option String
  old_value_field : Option String
deriving DecidableEq, Repr, Inhabited

/-- One raw row as fetched from `new_route_rf` (before `prepare_data`):
`route_min_date` is still free-form text. -/
structure RawRow where
  text_route_number : String
  text_route_number_count : Int
  route_month : Int
  route_year : Int
  teu : Int
  route_min_date : String
  type_of_transportation : String
  departure_station_code_of_rf : String
  destination_station_code_of_rf : String
  payer_of_the_railway_tariff_unified : String
  shipper_okpo : String
  consignee_okpo : String
  departure_station_of_the_rf : String
  rf_destination_station : String
  shipper_by_puzt : String
  consignee_by_puzt : String
deriving DecidableEq, Repr, Inhabited

/-- `MIN_MATCHING_KEY_THRESHOLD` from `scripts/__init__.py`. -/
def MIN_MATCHING_KEY_THRESHOLD : Nat := 3

/-- The default category string assigned by `prepare_data`
(`'Новый маршрут'`, "new route"). -/
def NEW_CATEGORY : String := "Новый маршрут"

/-- The category string assigned by `analyze_routes` on a match
(`'Изменение в маршруте'`, "change in route"). -/
def CHANGED_CATEGORY : String := "Изменение в маршруте"

/-- `RouteAnalyzer.key_columns`: the five identifying attributes. -/
def key_columns : List String :=
  ["departure_station_code_of_rf", "destination_station_code_of_rf",
   "payer_of_the_railway_tariff_unified", "shipper_okpo", "consignee_okpo"]

/-- Row indexing `row[c]` for the key columns. -/
def attrOf (r : Route) (c : String) : String :=
  if c = "departure_station_code_of_rf" then r.departure_station_code_of_rf
  else if c = "destination_station_code_of_rf" then r.destination_station_code_of_rf
  else if c = "payer_of_the_railway_tariff_unified" then r.payer_of_the_railway_tariff_unified
  else if c = "shipper_okpo" then r.shipper_okpo
  else if c = "consignee_okpo" then r.consignee_okpo
  else ""

/-- `RouteAnalyzer.old_value_mapping` as a function
(`dict.get(field, field)`). -/
def old_value_mapping (field : String) : String :=
  if field = "departure_station_code_of_rf" then "departure_station_of_the_rf"
  else if field = "destination_station_code_of_rf" then "rf_destination_station"
  else if field = "payer_of_the_railway_tariff_unified" then "payer_of_the_railway_tariff_unified"
  else if field = "shipper_okpo" then "shipper_by_puzt"
  else if field = "consignee_okpo" then "consignee_by_puzt"
  else field

/-- Row indexing `row[c]` for the display (audit) columns that
`old_value_mapping` maps into. -/
def attrDisplay (r : Route) (c : String) : String :=
  if c = "departure_station_of_the_rf" then r.departure_station_of_the_rf
  else if c = "rf_destination_station" then r.rf_destination_station
  else if c = "payer_of_the_railway_tariff_unified" then r.payer_of_the_railway_tariff_unified
  else if c = "shipper_by_puzt" then r.shipper_by_puzt
  else if c = "consignee_by_puzt" then r.consignee_by_puzt
  else ""

/-- `f"{previous_route[self.old_value_mapping.get(field, field)]}"`:
the predecessor's display value for a changed key column. -/
def displayOf (r : Route) (field : String) : String :=
  attrDisplay r (old_value_mapping field)

/-- Pandas equality on (possibly missing) dates: `NaT` compares
unequal to everything, including another `NaT`. -/
def dateEq : Option Nat → Option Nat → Bool
  | some a, some b => a == b
  | _, _ => false

/-- `matching_values.sum()`: how many of the five key columns agree. -/
def matchCount (cur prev : Route) : Nat :=
  (key_columns.filter (fun c => attrOf cur c = attrOf prev c)).length

/-- `matching_values[matching_values == 0].index.tolist()`: the key
columns where the two rows differ, in `key_columns` order. -/
def changedFields (cur prev : Route) : List String :=
  key_columns.filter (fun c => ¬ attrOf cur c = attrOf prev c)

/-- `', '.join(...)`. -/
def joinFields (l : List String) : String := String.intercalate ", " l

/-- List accessor mirroring `df.iloc[i]` / `df.loc[i]` (indices used
by the source are always in bounds; `default` is never reached there). -/
def getR (df : List Route) (i : Nat) : Route := df.getD i default

/-- `RouteAnalyzer.compare_and_update_routes`: compares the rows at
`current_index` and `previous_index`; as a side effect, populates the
three provenance columns of the current row when it is still empty and
the first three conditions hold.  Returns the updated dataset together
with the boolean result. -/
def compare_and_update_routes (df : List Route) (current_index previous_index : Nat) :
    List Route × Bool :=
  let current_route := getR df current_index
  let previous_route := getR df previous_index
  if dateEq current_route.route_min_date previous_route.route_min_date then (df, false)
  else if ¬ current_route.type_of_transportation = previous_route.type_of_transportation then
    (df, false)
  else if matchCount current_route previous_route < MIN_MATCHING_KEY_THRESHOLD then (df, false)
  else
    let df2 :=
      if current_route.old_text_route_number = none then
        df.set current_index
          { current_route with
            old_text_route_number := some previous_route.text_route_number,
            changed_field := some (joinFields (changedFields current_route previous_route)),
            old_value_field := some (joinFields
              ((changedFields current_route previous_route).map
                (fun f => displayOf previous_route f))) }
      else df
    (df2, decide (attrOf current_route "departure_station_code_of_rf" =
                  attrOf previous_route "departure_station_code_of_rf")
       && decide (attrOf current_route "destination_station_code_of_rf" =
                  attrOf previous_route "destination_station_code_of_rf"))

/-- The inner loop of `analyze_routes`: `for j in reversed(range(i))`,
breaking (and stamping the category) at the first comparison that
returns `True`. -/
def scanCandidates (df : List Route) (i : Nat) : List Nat → List Route
  | [] => df
  | j :: js =>
    let res := compare_and_update_routes df i j
    if res.snd then
      res.fst.set i { getR res.fst i with category_route := CHANGED_CATEGORY }
    else scanCandidates res.fst i js

/-- The outer loop of `analyze_routes` up to and including index `m`
(`for i in range(1, m + 1)`). -/
def analyzeAux (df : List Route) : Nat → List Route
  | 0 => df
  | m + 1 => scanCandidates (analyzeAux df m) (m + 1) (List.range (m + 1)).reverse

/-- `RouteAnalyzer.analyze_routes` (`for i in range(1, len(df))`). -/
def analyze_routes (df : List Route) : List Route :=
  analyzeAux df (df.length - 1)

/-- Removes every occurrence of the two-character marker `М_`
(`str.replace('М_', '', regex=True)`). -/
def removeMMarker : List Char → List Char
  | [] => []
  | 'М' :: '_' :: rest => removeMMarker rest
  | c :: rest => c :: removeMMarker rest

/-- All-digit parse accumulator. -/
def digitsToNatAux : List Char → Nat → Option Nat
  | [], acc => some acc
  | c :: cs, acc =>
    if c.isDigit then digitsToNatAux cs (acc * 10 + (c.toNat - 48)) else none

/-- Parses a non-empty all-digit character list. -/
def parseNatDigits (cs : List Char) : Option Nat :=
  if cs.isEmpty then none else digitsToNatAux cs 0

/-- The `text_route_number_int` derivation of `prepare_data`:
`df['text_route_number'].str.replace('М_', '', regex=True).astype('uint32')`.
`none` models the exception raised by `astype` (non-numeric remainder
or out of `uint32` range). -/
def parseSuffix (s : String) : Option Nat :=
  match parseNatDigits (removeMMarker s.data) with
  | some n => if n < 4294967296 then some n else none
  | none => none

/-- Splits a character list at `'-'`. -/
def splitDash : List Char → List (List Char)
  | [] => [[]]
  | c :: cs =>
    if c = '-' then [] :: splitDash cs
    else
      match splitDash cs with
      | [] => [[c]]
      | g :: gs => (c :: g) :: gs

/-- `pd.to_datetime(_, errors='coerce').dt.date`: the free-form pandas
date parser is modelled on its ISO `YYYY-MM-DD` fragment; any text it
cannot parse coerces to `none` (pandas `NaT`).  A parsed date is
encoded monotonically as `y * 10000 + m * 100 + d`. -/
def parseDate (s : String) : Option Nat :=
  match (splitDash s.data).map parseNatDigits with
  | [some y, some m, some d] =>
    if 1 ≤ m ∧ m ≤ 12 ∧ 1 ≤ d ∧ d ≤ 31 then some (y * 10000 + m * 100 + d) else none
  | _ => none

/-- Strict order on sort dates with `NaT` greatest
(`sort_values` places missing keys last, `na_position='last'`). -/
def dateLtB : Option Nat → Option Nat → Bool
  | some a, some b => a < b
  | some _, none => true
  | none, _ => false

/-- Sort-key equality on dates (two missing sort keys tie and fall
through to the secondary key). -/
def dateEqKey : Option Nat → Option Nat → Bool
  | some a, some b => a == b
  | none, none => true
  | _, _ => false

/-- The secondary sort key `text_route_number_int` (always `some` in a
dataset that survived `prepare_data`). -/
def suffixKey (r : Route) : Nat := (parseSuffix r.text_route_number).getD 0

/-- The lexicographic comparison used by
`sort_values(by=['route_min_date', 'text_route_number_int'])`. -/
def keyLe (r s : Route) : Bool :=
  dateLtB r.route_min_date s.route_min_date ||
    (dateEqKey r.route_min_date s.route_min_date && decide (suffixKey r ≤ suffixKey s))

/-- One step of the stable insertion embedding of the sort. -/
def insertSorted (x : Route) : List Route → List Route
  | [] => [x]
  | y :: ys => if keyLe x y then x :: y :: ys else y :: insertSorted x ys

/-- Stable sort by `(route_min_date, text_route_number_int)`
(pandas multi-key `sort_values` is a stable lexicographic sort). -/
def sortRoutes (l : List Route) : List Route := l.foldr insertSorted []

/-- Conversion of one fetched row: date parse with coercion to `none`,
and initialization of the four output columns added by `prepare_data`. -/
def toRoute (r : RawRow) : Route :=
  { text_route_number := r.text_route_number,
    text_route_number_count := r.text_route_number_count,
    route_month := r.route_month,
    route_year := r.route_year,
    teu := r.teu,
    route_min_date := parseDate r.route_min_date,
    type_of_transportation := r.type_of_transportation,
    departure_station_code_of_rf := r.departure_station_code_of_rf,
    destination_station_code_of_rf := r.destination_station_code_of_rf,
    payer_of_the_railway_tariff_unified := r.payer_of_the_railway_tariff_unified,
    shipper_okpo := r.shipper_okpo,
    consignee_okpo := r.consignee_okpo,
    departure_station_of_the_rf := r.departure_station_of_the_rf,
    rf_destination_station := r.rf_destination_station,
    shipper_by_puzt := r.shipper_by_puzt,
    consignee_by_puzt := r.consignee_by_puzt,
    category_route := NEW_CATEGORY,
    old_text_route_number := none,
    changed_field := none,
    old_value_field := none }

/-- `RouteAnalyzer.prepare_data`: coerces dates, derives the numeric
suffix sort key (raising — `Except.error` — when any
`text_route_number` has no parsable suffix, as `astype('uint32')`
does), sorts by `(route_min_date, text_route_number_int)` and
initializes the output columns. -/
def prepare_data (raws : List RawRow) : Except String (List Route) :=
  if raws.all (fun r => (parseSuffix r.text_route_number).isSome) then
    Except.ok (sortRoutes (raws.map toRoute))
  else Except.error "could not convert text_route_number to uint32"

/-- The pure core of `RouteAnalyzer.run`: normalize then classify. -/
def run_pipeline (raws : List RawRow) : Except String (List Route) :=
  (prepare_data raws).map analyze_routes

/-- Observable side effects of the sink stage. -/
inductive SinkEvent where
  | audit_write (ok : Bool)
  | db_insert (ok : Bool)
  | exit_fatal
deriving DecidableEq, Repr

/-- `df.to_csv(filename)` as an outcome-indexed effect: it either
succeeds or raises. -/
def to_csv (auditOk : Bool) : Except String (List SinkEvent) :=
  if auditOk then Except.ok [SinkEvent.audit_write true] else Except.error "Write error"

/-- `RouteAnalyzer.save_to_file`: the `to_csv` call is wrapped in
`try/except`; a failure is logged (the `audit_write false` event) and
never re-raised. -/
def save_to_file (auditOk : Bool) : List SinkEvent :=
  match to_csv auditOk with
  | Except.ok evs => evs
  | Except.error _ => [SinkEvent.audit_write false]

/-- `RouteAnalyzer.insert_data`: calls `save_to_file` first
(unconditionally), then attempts the ClickHouse insert; an insert
failure is logged and terminates the process (`sys.exit(1)`). -/
def insert_data (auditOk insertOk : Bool) : List SinkEvent :=
  save_to_file auditOk ++
    (if insertOk then [SinkEvent.db_insert true]
     else [SinkEvent.db_insert false, SinkEvent.exit_fatal])

/-- The first three conditions of `compare_and_update_routes`
(different dates, same transport type, at least
`MIN_MATCHING_KEY_THRESHOLD` matching key columns): exactly the guard
under which the provenance columns get populated. -/
def pre3B (cur prev : Route) : Bool :=
  !dateEq cur.route_min_date prev.route_min_date &&
  decide (cur.type_of_transportation = prev.type_of_transportation) &&
  decide (MIN_MATCHING_KEY_THRESHOLD ≤ matchCount cur prev)

/-- The corridor condition (equal departure and destination codes). -/
def corridorB (cur prev : Route) : Bool :=
  decide (attrOf cur "departure_station_code_of_rf" =
          attrOf prev "departure_station_code_of_rf") &&
  decide (attrOf cur "destination_station_code_of_rf" =
          attrOf prev "destination_station_code_of_rf")

/-- The boolean returned by `compare_and_update_routes`: all four
conditions. -/
def pureMatchB (cur prev : Route) : Bool := pre3B cur prev && corridorB cur prev

/-- The record produced by the provenance assignment block of
`compare_and_update_routes`. -/
def assignRec (cur prev : Route) : Route :=
  { cur with
    old_text_route_number := some prev.text_route_number,
    changed_field := some (joinFields (changedFields cur prev)),
    old_value_field := some (joinFields
      ((changedFields cur prev).map (fun f => displayOf prev f))) }

/-- Projection of a record to its immutable (input) columns: the four
output columns are blanked.  Two records with equal `core` agree on
every column the classifier reads for comparison. -/
def Route.core (r : Route) : Route :=
  { r with category_route := "", old_text_route_number := none,
           changed_field := none, old_value_field := none }

/-- The candidate order of the inner loop: `reversed(range(i))`. -/
def candidateList (i : Nat) : List Nat := (List.range i).reverse

/-- Functional specification of one inner-loop pass for record `i`:
the provenance columns are populated from the first scanned candidate
passing the three threshold conditions (when still empty), and the
category is stamped when some scanned candidate passes all four. -/
def scanSpec (df : List Route) (i : Nat) (js : List Nat) : List Route :=
  let cur := getR df i
  let afterAssign :=
    if cur.old_text_route_number = none then
      match js.find? (fun j => pre3B cur (getR df j)) with
      | some j => df.set i (assignRec cur (getR df j))
      | none => df
    else df
  if (js.find? (fun j => pureMatchB cur (getR df j))).isSome then
    afterAssign.set i { getR afterAssign i with category_route := CHANGED_CATEGORY }
  else afterAssign

/-- The record produced for index `i` by one inner-loop pass over
candidates `js`. -/
def scanRec (df : List Route) (i : Nat) (js : List Nat) : Route :=
  let cur := getR df i
  let assigned :=
    if cur.old_text_route_number = none then
      match js.find? (fun j => pre3B cur (getR df j)) with
      | some j => assignRec cur (getR df j)
      | none => cur
    else cur
  if (js.find? (fun j => pureMatchB cur (getR df j))).isSome then
    { assigned with category_route := CHANGED_CATEGORY }
  else assigned

/-- The final value of record `i` (for `1 ≤ i < length`) after
`analyze_routes`, expressed over the input dataset. -/
def postRec (df : List Route) (i : Nat) : Route := scanRec df i (candidateList i)

/-- Builds a raw row (numeric columns fixed; display columns derived
from the codes with distinct markers so code and display values differ). -/
def mkRaw (id date transport dep dest payer ship cons : String) : RawRow :=
  { text_route_number := id, text_route_number_count := 1, route_month := 1,
    route_year := 2024, teu := 1, route_min_date := date,
    type_of_transportation := transport,
    departure_station_code_of_rf := dep, destination_station_code_of_rf := dest,
    payer_of_the_railway_tariff_unified := payer, shipper_okpo := ship,
    consignee_okpo := cons,
    departure_station_of_the_rf := String.append "D-" dep,
    rf_destination_station := String.append "A-" dest,
    shipper_by_puzt := String.append "S-" ship,
    consignee_by_puzt := String.append "C-" cons }

/-- Two records that differ only in the departure code (4 of 5 key
columns match, corridor differs). -/
def ex1raw : List RawRow :=
  [mkRaw "М_1001" "2024-01-01" "T" "A" "X" "P" "S" "C",
   mkRaw "М_1002" "2024-01-02" "T" "B" "X" "P" "S" "C"]

/-- Three records: record 2 matches record 0 on all four conditions but
first scans record 1, which passes the 3-of-5 threshold with a
different departure code. -/
def ex2raw : List RawRow :=
  [mkRaw "М_1001" "2024-01-01" "T" "A" "X" "P" "S" "C",
   mkRaw "М_1002" "2024-01-02" "T" "B" "X" "P" "S" "C",
   mkRaw "М_1003" "2024-01-03" "T" "A" "X" "P" "S" "C"]

/-- Two identical records whose observed-date text is unparsable. -/
def ex3raw : List RawRow :=
  [mkRaw "М_1001" "garbage" "T" "A" "X" "P" "S" "C",
   mkRaw "М_1002" "also bad" "T" "A" "X" "P" "S" "C"]

/-- Two records identical on every key column, on different dates. -/
def ex4raw : List RawRow :=
  [mkRaw "М_1001" "2024-01-01" "T" "A" "X" "P" "S" "C",
   mkRaw "М_1002" "2024-01-02" "T" "A" "X" "P" "S" "C"]

/-- One record whose `text_route_number` has no numeric suffix. -/
def ex6raw : List RawRow :=
  [mkRaw "ABC" "2024-01-01" "T" "A" "X" "P" "S" "C"]

/-- The prepared dataset of a raw batch (empty on a prepare failure). -/
def prepOf (raws : List RawRow) : List Route :=
  match prepare_data raws with
  | Except.ok l => l
  | Except.error _ => []

/-- `compare_and_update_routes` rewritten as: conditional provenance
assignment, paired with the pure four-condition match predicate. -/
theorem compare_eq (df : List Route) (i j : Nat) :
    compare_and_update_routes df i j =
      ((if pre3B (getR df i) (getR df j) = true ∧
           (getR df i).old_text_route_number = none
        then df.set i (assignRec (getR df i) (getR df j)) else df),
       pureMatchB (getR df i) (getR df j)) := by
  unfold compare_and_update_routes pureMatchB pre3B corridorB assignRec
  cases hd : dateEq (getR df i).route_min_date (getR df j).route_min_date
  · by_cases ht : (getR df i).type_of_transportation = (getR df j).type_of_transportation
    · by_cases hm : matchCount (getR df i) (getR df j) < MIN_MATCHING_KEY_THRESHOLD
      · simp [hd, ht, hm, Nat.not_le.mpr hm]
      · simp [hd, ht, hm, Nat.le_of_not_lt hm]
    · simp [hd, ht]
  · simp [hd]

theorem getR_set_self (df : List Route) (i : Nat) (v : Route) (h : i < df.length) :
    getR (df.set i v) i = v := by
  simp [getR, List.getD, List.getElem?_set_self, h]

theorem getR_set_ne (df : List Route) (i k : Nat) (v : Route) (h : ¬ i = k) :
    getR (df.set i v) k = getR df k := by
  simp [getR, List.getD, List.getElem?_set_ne h]

theorem find?_ext {α : Type} (p q : α → Bool) (l : List α)
    (h : ∀ a ∈ l, p a = q a) : l.find? p = l.find? q := by
  induction l with
  | nil => rfl
  | cons a l ih =>
    have ha := h a (List.mem_cons_self a l)
    have hl := ih (fun b hb => h b (List.mem_cons_of_mem a hb))
    cases hp : p a
    · have hp1 : ¬ p a = true := by simp [hp]
      have hp2 : ¬ q a = true := by simp [← ha, hp]
      rw [List.find?_cons_of_neg _ hp1, List.find?_cons_of_neg _ hp2, hl]
    · rw [List.find?_cons_of_pos _ hp, List.find?_cons_of_pos _ (ha ▸ hp)]

theorem core_assignRec (c p : Route) : (assignRec c p).core = c.core := rfl

theorem core_setCategory (r : Route) (x : String) :
    ({ r with category_route := x } : Route).core = r.core := rfl

/-- Field equalities extracted from equality of cores. -/
theorem core_fields {r s : Route} (h : r.core = s.core) :
    r.text_route_number = s.text_route_number ∧
    r.route_min_date = s.route_min_date ∧
    r.type_of_transportation = s.type_of_transportation ∧
    r.departure_station_code_of_rf = s.departure_station_code_of_rf ∧
    r.destination_station_code_of_rf = s.destination_station_code_of_rf ∧
    r.payer_of_the_railway_tariff_unified = s.payer_of_the_railway_tariff_unified ∧
    r.shipper_okpo = s.shipper_okpo ∧
    r.consignee_okpo = s.consignee_okpo ∧
    r.departure_station_of_the_rf = s.departure_station_of_the_rf ∧
    r.rf_destination_station = s.rf_destination_station ∧
    r.shipper_by_puzt = s.shipper_by_puzt ∧
    r.consignee_by_puzt = s.consignee_by_puzt := by
  cases r; cases s
  simp only [Route.core, Route.mk.injEq] at h
  simp_all

theorem attrOf_congr {r s : Route} (h : r.core = s.core) (c : String) :
    attrOf r c = attrOf s c := by
  obtain ⟨-, -, -, h4, h5, h6, h7, h8, -, -, -, -⟩ := core_fields h
  unfold attrOf
  rw [h4, h5, h6, h7, h8]

theorem attrDisplay_congr {r s : Route} (h : r.core = s.core) (c : String) :
    attrDisplay r c = attrDisplay s c := by
  obtain ⟨-, -, -, -, -, h6, -, -, h9, h10, h11, h12⟩ := core_fields h
  unfold attrDisplay
  rw [h6, h9, h10, h11, h12]

theorem displayOf_congr {r s : Route} (h : r.core = s.core) (c : String) :
    displayOf r c = displayOf s c := attrDisplay_congr h _

theorem changedFields_congr {r r' p p' : Route} (h : r.core = r'.core)
    (h' : p.core = p'.core) : changedFields r p = changedFields r' p' := by
  unfold changedFields
  exact List.filter_congr (fun c _ => by rw [attrOf_congr h c, attrOf_congr h' c])

theorem matchCount_congr {r r' p p' : Route} (h : r.core = r'.core)
    (h' : p.core = p'.core) : matchCount r p = matchCount r' p' := by
  unfold matchCount
  rw [List.filter_congr (fun c _ => by rw [attrOf_congr h c, attrOf_congr h' c])]

theorem pre3B_congr {r r' p p' : Route} (h : r.core = r'.core)
    (h' : p.core = p'.core) : pre3B r p = pre3B r' p' := by
  obtain ⟨-, hd, ht, -, -, -, -, -, -, -, -, -⟩ := core_fields h
  obtain ⟨-, hd', ht', -, -, -, -, -, -, -, -, -⟩ := core_fields h'
  unfold pre3B
  rw [hd, ht, hd', ht', matchCount_congr h h']

theorem corridorB_congr {r r' p p' : Route} (h : r.core = r'.core)
    (h' : p.core = p'.core) : corridorB r p = corridorB r' p' := by
  unfold corridorB
  rw [attrOf_congr h, attrOf_congr h', attrOf_congr h, attrOf_congr h']

theorem pureMatchB_congr {r r' p p' : Route} (h : r.core = r'.core)
    (h' : p.core = p'.core) : pureMatchB r p = pureMatchB r' p' := by
  unfold pureMatchB
  rw [pre3B_congr h h', corridorB_congr h h']

theorem assignRec_congr {c p p' : Route} (h : p.core = p'.core) :
    assignRec c p = assignRec c p' := by
  obtain ⟨h1, -, -, -, -, -, -, -, -, -, -, -⟩ := core_fields h
  unfold assignRec
  rw [h1, changedFields_congr rfl h,
    List.map_congr_left (fun f _ => displayOf_congr h f)]

theorem scanCandidates_eq_spec (i : Nat) (js : List Nat) :
    ∀ (df : List Route), (∀ j ∈ js, ¬ j = i) → i < df.length →
      scanCandidates df i js = scanSpec df i js := by
  induction js with
  | nil =>
    intro df _ _
    simp [scanCandidates, scanSpec]
  | cons j js ih =>
    intro df hjs hi
    have hjs' : ∀ k ∈ js, ¬ k = i := fun k hk => hjs k (List.mem_cons_of_mem j hk)
    cases hpm : pureMatchB (getR df i) (getR df j) with
    | true =>
      have hp3 : pre3B (getR df i) (getR df j) = true := by
        have h := hpm
        simp only [pureMatchB, Bool.and_eq_true] at h
        exact h.1
      have hfp : List.find? (fun k => pureMatchB (getR df i) (getR df k)) (j :: js) =
          some j := List.find?_cons_of_pos _ hpm
      have hf3 : List.find? (fun k => pre3B (getR df i) (getR df k)) (j :: js) =
          some j := List.find?_cons_of_pos _ hp3
      by_cases hold : (getR df i).old_text_route_number = none
      · simp only [scanCandidates, compare_eq, hpm, if_true, hp3, hold, and_self, if_pos,
          scanSpec, hfp, hf3, Option.isSome_some]
      · simp only [scanCandidates, compare_eq, hpm, if_true, scanSpec, hold, hfp, hf3,
          Option.isSome_some, if_neg, ite_false]
        simp [hold]
    | false =>
      have hfp : List.find? (fun k => pureMatchB (getR df i) (getR df k)) (j :: js) =
          List.find? (fun k => pureMatchB (getR df i) (getR df k)) js :=
        List.find?_cons_of_neg _ (by simp [hpm])
      by_cases hp3 : pre3B (getR df i) (getR df j) = true
      · have hf3 : List.find? (fun k => pre3B (getR df i) (getR df k)) (j :: js) =
            some j := List.find?_cons_of_pos _ hp3
        by_cases hold : (getR df i).old_text_route_number = none
        · -- provenance assigned from candidate j, scan continues on the updated list
          have hstep : scanCandidates df i (j :: js) =
              scanCandidates (df.set i (assignRec (getR df i) (getR df j))) i js := by
            simp only [scanCandidates, compare_eq, hpm, hp3, hold, and_self, if_pos,
              Bool.false_eq_true, if_false]
          have hcur : getR (df.set i (assignRec (getR df i) (getR df j))) i =
              assignRec (getR df i) (getR df j) := getR_set_self _ _ _ hi
          have hnone : ¬ (getR (df.set i (assignRec (getR df i) (getR df j))) i
              ).old_text_route_number = none := by
            rw [hcur]; simp [assignRec]
          have hfind : List.find? (fun k => pureMatchB
                (getR (df.set i (assignRec (getR df i) (getR df j))) i)
                (getR (df.set i (assignRec (getR df i) (getR df j))) k)) js =
              List.find? (fun k => pureMatchB (getR df i) (getR df k)) js := by
            apply find?_ext
            intro k hk
            rw [hcur, getR_set_ne _ _ _ _ (fun he => hjs' k hk he.symm)]
            exact pureMatchB_congr (core_assignRec _ _) rfl
          rw [hstep, ih _ hjs' (by rw [List.length_set]; exact hi)]
          simp only [scanSpec, hnone, if_neg, ite_false, hfind, hfp, hf3, hold, if_pos, ite_true]
        · -- threshold passed but provenance already set: no mutation
          have hstep : scanCandidates df i (j :: js) = scanCandidates df i js := by
            simp only [scanCandidates, compare_eq, hpm, hold, and_false, if_neg,
              Bool.false_eq_true, if_false, not_false_eq_true]
          rw [hstep, ih _ hjs' hi]
          simp only [scanSpec, hold, hfp, if_neg, ite_false]
      · -- threshold failed: no mutation
        have hf3 : List.find? (fun k => pre3B (getR df i) (getR df k)) (j :: js) =
            List.find? (fun k => pre3B (getR df i) (getR df k)) js :=
          List.find?_cons_of_neg _ (by simp [hp3])
        have hstep : scanCandidates df i (j :: js) = scanCandidates df i js := by
          simp only [scanCandidates, compare_eq, hpm, hp3, false_and, if_neg,
            Bool.false_eq_true, if_false, not_false_eq_true]
        rw [hstep, ih _ hjs' hi]
        simp only [scanSpec, hfp, hf3]

theorem scanSpec_length (df : List Route) (i : Nat) (js : List Nat) :
    (scanSpec df i js).length = df.length := by
  unfold scanSpec
  by_cases hold : (getR df i).old_text_route_number = none
  · cases h3 : js.find? (fun j => pre3B (getR df i) (getR df j)) with
    | none => simp only [hold, if_pos, h3]; split <;> simp [List.length_set]
    | some j => simp only [hold, if_pos, h3]; split <;> simp [List.length_set]
  · simp only [hold, if_neg, ite_false]; split <;> simp [List.length_set]

theorem scanSpec_getR_ne (df : List Route) (i k : Nat) (js : List Nat) (h : ¬ i = k) :
    getR (scanSpec df i js) k = getR df k := by
  unfold scanSpec
  by_cases hold : (getR df i).old_text_route_number = none
  · cases h3 : js.find? (fun j => pre3B (getR df i) (getR df j)) with
    | none => simp only [hold, if_pos, h3]; split <;> simp [getR_set_ne _ _ _ _ h]
    | some j => simp only [hold, if_pos, h3]; split <;> simp [getR_set_ne _ _ _ _ h]
  · simp only [hold, if_neg, ite_false]; split <;> simp [getR_set_ne _ _ _ _ h]

theorem scanSpec_getR_self (df : List Route) (i : Nat) (js : List Nat) (hi : i < df.length) :
    getR (scanSpec df i js) i = scanRec df i js := by
  unfold scanSpec scanRec
  by_cases hold : (getR df i).old_text_route_number = none
  · cases h3 : js.find? (fun j => pre3B (getR df i) (getR df j)) with
    | none =>
      simp only [hold, if_pos, h3]
      split
      · rw [getR_set_self _ _ _ hi]
      · rfl
    | some j =>
      simp only [hold, if_pos, h3]
      split
      · rw [getR_set_self _ _ _ (by rw [List.length_set]; exact hi),
          getR_set_self _ _ _ hi]
      · rw [getR_set_self _ _ _ hi]
  · simp only [hold, if_neg, ite_false]
    split
    · rw [getR_set_self _ _ _ hi]
    · rfl

theorem scanRec_congr (df df' : List Route) (i : Nat) (js : List Nat)
    (hcur : getR df i = getR df' i)
    (hcore : ∀ j ∈ js, (getR df j).core = (getR df' j).core) :
    scanRec df i js = scanRec df' i js := by
  unfold scanRec
  simp only [hcur]
  have hf3 : js.find? (fun j => pre3B (getR df' i) (getR df j)) =
      js.find? (fun j => pre3B (getR df' i) (getR df' j)) :=
    find?_ext _ _ _ (fun j hj => pre3B_congr rfl (hcore j hj))
  have hfp : js.find? (fun j => pureMatchB (getR df' i) (getR df j)) =
      js.find? (fun j => pureMatchB (getR df' i) (getR df' j)) :=
    find?_ext _ _ _ (fun j hj => pureMatchB_congr rfl (hcore j hj))
  rw [hf3, hfp]
  by_cases hold : (getR df' i).old_text_route_number = none
  · cases h3 : js.find? (fun j => pre3B (getR df' i) (getR df' j)) with
    | none => simp only [hold, if_pos, h3]
    | some j =>
      have hj : j ∈ js := List.mem_of_find?_eq_some h3
      simp only [hold, if_pos, h3, assignRec_congr (hcore j hj)]
  · simp only [hold, if_neg, ite_false]

/-- Core invariants of the outer loop of `analyze_routes`: length is
preserved, untouched records (index `0` and indices beyond the loop
counter) keep their values, processed records equal `postRec` of the
original dataset, and immutable columns are never modified. -/
theorem analyzeAux_spec (df : List Route) :
    ∀ m, m < df.length →
      (analyzeAux df m).length = df.length ∧
      (∀ k, k = 0 ∨ m < k → getR (analyzeAux df m) k = getR df k) ∧
      (∀ k, 1 ≤ k → k ≤ m → getR (analyzeAux df m) k = postRec df k) ∧
      (∀ k, (getR (analyzeAux df m) k).core = (getR df k).core) := by
  intro m
  induction m with
  | zero =>
    intro _
    exact ⟨rfl, fun k _ => rfl, fun k h1 h2 => absurd (Nat.le_trans h1 h2) (by omega),
      fun k => rfl⟩
  | succ m ih =>
    intro hm
    have hm' : m < df.length := Nat.lt_of_succ_lt hm
    obtain ⟨ihlen, ihfresh, ihdone, ihcore⟩ := ih hm'
    have hmem : ∀ j ∈ candidateList (m + 1), ¬ j = m + 1 := by
      intro j hj
      have : j < m + 1 := by
        have := List.mem_reverse.mp hj
        exact List.mem_range.mp this
      omega
    have hilt : m + 1 < (analyzeAux df m).length := by rw [ihlen]; exact hm
    have hieq : analyzeAux df (m + 1) =
        scanSpec (analyzeAux df m) (m + 1) (candidateList (m + 1)) := by
      show scanCandidates (analyzeAux df m) (m + 1) (List.range (m + 1)).reverse = _
      exact scanCandidates_eq_spec _ _ _ hmem hilt
    have hself : getR (analyzeAux df (m + 1)) (m + 1) = postRec df (m + 1) := by
      rw [hieq, scanSpec_getR_self _ _ _ hilt]
      unfold postRec
      apply scanRec_congr
      · exact ihfresh (m + 1) (Or.inr (Nat.lt_succ_self m))
      · intro j _
        exact ihcore j
    refine ⟨?_, ?_, ?_, ?_⟩
    · rw [hieq, scanSpec_length, ihlen]
    · intro k hk
      have hne : ¬ m + 1 = k := by omega
      rw [hieq, scanSpec_getR_ne _ _ _ _ hne]
      exact ihfresh k (by omega)
    · intro k h1 h2
      by_cases hk : k = m + 1
      · rw [hk]; exact hself
      · have hne : ¬ m + 1 = k := fun h => hk h.symm
        rw [hieq, scanSpec_getR_ne _ _ _ _ hne]
        exact ihdone k h1 (by omega)
    · intro k
      by_cases hk : k = m + 1
      · rw [hk, hself]
        unfold postRec scanRec
        by_cases hold : (getR df (m + 1)).old_text_route_number = none
        · cases h3 : (candidateList (m + 1)).find?
              (fun j => pre3B (getR df (m + 1)) (getR df j)) with
          | none => simp only [hold, if_pos, h3]; split <;> rfl
          | some j =>
            simp only [hold, if_pos, h3]
            split
            · exact (core_setCategory _ _).trans (core_assignRec _ _)
            · exact core_assignRec _ _
        · simp only [hold, if_neg, ite_false]; split <;> rfl
      · have hne : ¬ m + 1 = k := fun h => hk h.symm
        rw [hieq, scanSpec_getR_ne _ _ _ _ hne]
        exact ihcore k

theorem analyze_routes_length (df : List Route) :
    (analyze_routes df).length = df.length := by
  unfold analyze_routes
  cases hn : df.length with
  | zero =>
    have hnil : df = [] := List.length_eq_zero.mp hn
    rw [hnil]; rfl
  | succ n =>
    simp only [Nat.add_sub_cancel]
    rw [← hn]
    exact (analyzeAux_spec df n (by omega)).1

theorem analyze_routes_getR_of_fresh (df : List Route) (k : Nat)
    (h : k = 0 ∨ df.length ≤ k) : getR (analyze_routes df) k = getR df k := by
  unfold analyze_routes
  cases hn : df.length with
  | zero =>
    have hnil : df = [] := List.length_eq_zero.mp hn
    rw [hnil]; rfl
  | succ n =>
    simp only [Nat.add_sub_cancel]
    exact (analyzeAux_spec df n (by omega)).2.1 k (by omega)

theorem analyze_routes_getR (df : List Route) (i : Nat) (h1 : 1 ≤ i)
    (h2 : i < df.length) : getR (analyze_routes df) i = postRec df i := by
  unfold analyze_routes
  cases hn : df.length with
  | zero => omega
  | succ n =>
    simp only [Nat.add_sub_cancel]
    exact (analyzeAux_spec df n (by omega)).2.2.1 i h1 (by omega)

theorem analyze_routes_core (df : List Route) (k : Nat) :
    (getR (analyze_routes df) k).core = (getR df k).core := by
  unfold analyze_routes
  cases hn : df.length with
  | zero =>
    have hnil : df = [] := List.length_eq_zero.mp hn
    rw [hnil]
    rfl
  | succ n =>
    simp only [Nat.add_sub_cancel]
    exact (analyzeAux_spec df n (by omega)).2.2.2 k

theorem find?_pure_none_of_pre3_none {df : List Route} {i : Nat} {js : List Nat}
    (h : js.find? (fun j => pre3B (getR df i) (getR df j)) = none) :
    js.find? (fun j => pureMatchB (getR df i) (getR df j)) = none := by
  rw [List.find?_eq_none] at h ⊢
  intro a ha hpure
  apply h a ha
  simp only [pureMatchB, Bool.and_eq_true] at hpure
  exact hpure.1

theorem list_ext_getR : ∀ (l1 l2 : List Route), l1.length = l2.length →
    (∀ k, getR l1 k = getR l2 k) → l1 = l2 := by
  intro l1
  induction l1 with
  | nil =>
    intro l2 h _
    exact (List.length_eq_zero.mp h.symm).symm
  | cons a l ih =>
    intro l2 h hk
    cases l2 with
    | nil => simp at h
    | cons b l2 =>
      have hhd : a = b := hk 0
      have htl : l = l2 := ih l2 (by simpa using h) (fun k => hk (k + 1))
      rw [hhd, htl]

theorem postRec_of_analyzed (df : List Route) (i : Nat) (h1 : 1 ≤ i)
    (h2 : i < df.length) :
    postRec (analyze_routes df) i = getR (analyze_routes df) i := by
  have hcur : getR (analyze_routes df) i = postRec df i := analyze_routes_getR df i h1 h2
  have hcore : ∀ k, (getR (analyze_routes df) k).core = (getR df k).core :=
    fun k => analyze_routes_core df k
  have hf3 : (candidateList i).find?
      (fun j => pre3B (getR (analyze_routes df) i) (getR (analyze_routes df) j)) =
      (candidateList i).find? (fun j => pre3B (getR df i) (getR df j)) :=
    find?_ext _ _ _ (fun j _ => pre3B_congr (hcore i) (hcore j))
  have hfp : (candidateList i).find?
      (fun j => pureMatchB (getR (analyze_routes df) i) (getR (analyze_routes df) j)) =
      (candidateList i).find? (fun j => pureMatchB (getR df i) (getR df j)) :=
    find?_ext _ _ _ (fun j _ => pureMatchB_congr (hcore i) (hcore j))
  unfold postRec scanRec
  simp only [hf3, hfp]
  by_cases hold : (getR df i).old_text_route_number = none
  · cases h3 : (candidateList i).find? (fun j => pre3B (getR df i) (getR df j)) with
    | none =>
      have hfpn : (candidateList i).find?
          (fun j => pureMatchB (getR df i) (getR df j)) = none :=
        find?_pure_none_of_pre3_none h3
      have hcc : getR (analyze_routes df) i = getR df i := by
        rw [hcur]; unfold postRec scanRec; simp [hold, h3, hfpn]
      simp [hcc, hold, h3, hfpn]
    | some j =>
      have hAval : getR (analyze_routes df) i =
          (if ((candidateList i).find?
              (fun j2 => pureMatchB (getR df i) (getR df j2))).isSome
           then { assignRec (getR df i) (getR df j) with
                  category_route := CHANGED_CATEGORY }
           else assignRec (getR df i) (getR df j)) := by
        rw [hcur]; unfold postRec scanRec; simp only [hold, if_pos, h3]
      cases hfpv : (candidateList i).find?
          (fun j2 => pureMatchB (getR df i) (getR df j2)) with
      | some k =>
        simp only [hfpv, Option.isSome_some, ite_true] at hAval
        have hold2 : ¬ (getR (analyze_routes df) i).old_text_route_number = none := by
          rw [hAval]; simp [assignRec]
        simp only [hfpv, Option.isSome_some, ite_true, hold2, if_neg, ite_false]
        rw [hAval]
      | none =>
        simp only [hfpv, Option.isSome_none, Bool.false_eq_true, ite_false] at hAval
        have hold2 : ¬ (getR (analyze_routes df) i).old_text_route_number = none := by
          rw [hAval]; simp [assignRec]
        simp only [hfpv, Option.isSome_none, Bool.false_eq_true, ite_false, hold2,
          if_neg]
  · have hAval : getR (analyze_routes df) i =
        (if ((candidateList i).find?
            (fun j2 => pureMatchB (getR df i) (getR df j2))).isSome
         then { getR df i with category_route := CHANGED_CATEGORY }
         else getR df i) := by
      rw [hcur]; unfold postRec scanRec; simp only [hold, if_neg, ite_false]
    cases hfpv : (candidateList i).find?
        (fun j2 => pureMatchB (getR df i) (getR df j2)) with
    | some k =>
      simp only [hfpv, Option.isSome_some, ite_true] at hAval
      have hold2 : ¬ (getR (analyze_routes df) i).old_text_route_number = none := by
        rw [hAval]
        simpa using hold
      simp only [hfpv, Option.isSome_some, ite_true, hold2, if_neg, ite_false]
      rw [hAval]
    | none =>
      simp only [hfpv, Option.isSome_none, Bool.false_eq_true, ite_false] at hAval
      have hold2 : ¬ (getR (analyze_routes df) i).old_text_route_number = none := by
        rw [hAval]
        simpa using hold
      simp only [hfpv, Option.isSome_none, Bool.false_eq_true, ite_false, hold2, if_neg]

theorem mem_insertSorted (x a : Route) : ∀ (l : List Route),
    a ∈ insertSorted x l → a = x ∨ a ∈ l := by
  intro l
  induction l with
  | nil =>
    intro h
    simp [insertSorted] at h
    exact Or.inl h
  | cons y ys ih =>
    intro h
    unfold insertSorted at h
    by_cases hle : keyLe x y = true
    · simp only [hle, ite_true] at h
      rcases List.mem_cons.mp h with h | h
      · exact Or.inl h
      · exact Or.inr h
    · simp only [hle, ite_false] at h
      rcases List.mem_cons.mp h with h | h
      · exact Or.inr (by simp [h])
      · rcases ih h with h1 | h1
        · exact Or.inl h1
        · exact Or.inr (List.mem_cons_of_mem _ h1)

theorem mem_sortRoutes (a : Route) : ∀ (l : List Route), a ∈ sortRoutes l → a ∈ l := by
  intro l
  induction l with
  | nil => intro h; exact h
  | cons x xs ih =>
    intro h
    rcases mem_insertSorted x a (sortRoutes xs) h with h1 | h1
    · simp [h1]
    · exact List.mem_cons_of_mem _ (ih h1)

theorem keyLe_total (r s : Route) : keyLe r s = true ∨ keyLe s r = true := by
  unfold keyLe
  cases hr : r.route_min_date <;> cases hs : s.route_min_date <;>
    simp [dateLtB, dateEqKey, Bool.or_eq_true, Bool.and_eq_true, decide_eq_true_eq] <;>
    omega

theorem keyLe_trans {r s t : Route} (h1 : keyLe r s = true) (h2 : keyLe s t = true) :
    keyLe r t = true := by
  unfold keyLe at h1 h2 ⊢
  cases hr : r.route_min_date <;> cases hs : s.route_min_date <;>
    cases ht : t.route_min_date <;>
    rw [hr, hs] at h1 <;> rw [hs, ht] at h2 <;>
    simp_all [dateLtB, dateEqKey, Bool.or_eq_true, Bool.and_eq_true,
      decide_eq_true_eq] <;>
    omega

theorem pairwise_insertSorted (x : Route) : ∀ (l : List Route),
    l.Pairwise (fun a b => keyLe a b = true) →
    (insertSorted x l).Pairwise (fun a b => keyLe a b = true) := by
  intro l
  induction l with
  | nil => intro _; simp [insertSorted]
  | cons y ys ih =>
    intro hp
    rw [List.pairwise_cons] at hp
    obtain ⟨hy, hys⟩ := hp
    unfold insertSorted
    by_cases hle : keyLe x y = true
    · rw [if_pos hle]
      rw [List.pairwise_cons]
      refine ⟨?_, ?_⟩
      · intro b hb
        rcases List.mem_cons.mp hb with hb | hb
        · rw [hb]; exact hle
        · exact keyLe_trans hle (hy b hb)
      · rw [List.pairwise_cons]
        exact ⟨hy, hys⟩
    · rw [if_neg hle]
      rw [List.pairwise_cons]
      refine ⟨?_, ih hys⟩
      intro b hb
      rcases mem_insertSorted x b ys hb with hb | hb
      · rw [hb]
        rcases keyLe_total x y with h | h
        · exact absurd h hle
        · exact h
      · exact hy b hb

theorem sortRoutes_pairwise (l : List Route) :
    (sortRoutes l).Pairwise (fun a b => keyLe a b = true) := by
  induction l with
  | nil => simp [sortRoutes]
  | cons x xs ih => exact pairwise_insertSorted x _ ih

theorem getR_eq_getElem (l : List Route) (i : Nat) (h : i < l.length) :
    getR l i = l[i] := by
  simp [getR, List.getD, List.getElem?_eq_getElem h]

theorem getR_mem (l : List Route) (i : Nat) (h : i < l.length) : getR l i ∈ l := by
  rw [getR_eq_getElem l i h]
  exact l.getElem_mem h

theorem getR_past_end (l : List Route) (i : Nat) (h : l.length ≤ i) :
    getR l i = default := by
  simp [getR, List.getD, List.getElem?_eq_none h]

theorem pairwise_getR {l : List Route} (h : l.Pairwise (fun a b => keyLe a b = true))
    {i j : Nat} (hij : i < j) (hj : j < l.length) :
    keyLe (getR l i) (getR l j) = true := by
  rw [List.pairwise_iff_getElem] at h
  have hi : i < l.length := Nat.lt_trans hij hj
  rw [getR_eq_getElem l i hi, getR_eq_getElem l j hj]
  exact h i j hi hj hij

theorem keyLe_date_le {r s : Route} (h : keyLe r s = true) {d : Nat}
    (hs : s.route_min_date = some d) :
    ∃ c, r.route_min_date = some c ∧ c ≤ d := by
  unfold keyLe at h
  cases hr : r.route_min_date with
  | none =>
    rw [hr, hs] at h
    simp [dateLtB, dateEqKey] at h
  | some c =>
    rw [hr, hs] at h
    simp only [dateLtB, dateEqKey, Bool.or_eq_true, Bool.and_eq_true,
      decide_eq_true_eq, beq_iff_eq] at h
    rcases h with h | h
    · exact ⟨c, rfl, Nat.le_of_lt h⟩
    · exact ⟨c, rfl, Nat.le_of_eq h.1⟩

theorem dateEq_none_left (b : Option Nat) : dateEq none b = false := by
  cases b <;> rfl

theorem attrOf_dep (r : Route) :
    attrOf r "departure_station_code_of_rf" = r.departure_station_code_of_rf := rfl

theorem attrOf_dest (r : Route) :
    attrOf r "destination_station_code_of_rf" = r.destination_station_code_of_rf := rfl

theorem prepare_data_mem_init (raws : List RawRow) (df : List Route)
    (h : prepare_data raws = Except.ok df) :
    ∀ r ∈ df, r.category_route = NEW_CATEGORY ∧
      r.old_text_route_number = none ∧ r.changed_field = none ∧
      r.old_value_field = none := by
  unfold prepare_data at h
  split at h
  · rw [Except.ok.injEq] at h
    subst h
    intro r hr
    have hmem : r ∈ raws.map toRoute := mem_sortRoutes r _ hr
    obtain ⟨raw, -, hraw⟩ := List.mem_map.mp hmem
    rw [← hraw]
    exact ⟨rfl, rfl, rfl, rfl⟩
  · cases h

theorem prepare_data_sorted (raws : List RawRow) (df : List Route)
    (h : prepare_data raws = Except.ok df) :
    df.Pairwise (fun a b => keyLe a b = true) := by
  unfold prepare_data at h
  split at h
  · rw [Except.ok.injEq] at h
    subst h
    exact sortRoutes_pairwise _
  · cases h

theorem postRec_old_text_some_preserved (df : List Route) (i : Nat)
    (h : ¬ (getR df i).old_text_route_number = none) :
    (postRec df i).old_text_route_number = (getR df i).old_text_route_number ∧
    (postRec df i).changed_field = (getR df i).changed_field ∧
    (postRec df i).old_value_field = (getR df i).old_value_field := by
  unfold postRec scanRec
  simp only [h, if_neg, ite_false]
  split <;> exact ⟨rfl, rfl, rfl⟩

theorem postRec_assigned (df : List Route) (i j : Nat)
    (hold : (getR df i).old_text_route_number = none)
    (h3 : (candidateList i).find? (fun k => pre3B (getR df i) (getR df k)) = some j) :
    (postRec df i).old_text_route_number = some ((getR df j).text_route_number) ∧
    (postRec df i).changed_field =
      some (joinFields (changedFields (getR df i) (getR df j))) ∧
    (postRec df i).old_value_field =
      some (joinFields ((changedFields (getR df i) (getR df j)).map
        (fun f => displayOf (getR df j) f))) := by
  unfold postRec scanRec
  simp only [hold, if_pos, h3]
  split <;> exact ⟨rfl, rfl, rfl⟩

theorem postRec_unassigned (df : List Route) (i : Nat)
    (hold : (getR df i).old_text_route_number = none)
    (h3 : (candidateList i).find? (fun k => pre3B (getR df i) (getR df k)) = none) :
    postRec df i = getR df i := by
  unfold postRec scanRec
  simp only [hold, if_pos, h3, find?_pure_none_of_pre3_none h3, Option.isSome_none,
    Bool.false_eq_true, ite_false]

theorem postRec_category (df : List Route) (i : Nat) :
    (postRec df i).category_route =
      (if ((candidateList i).find?
          (fun j => pureMatchB (getR df i) (getR df j))).isSome
       then CHANGED_CATEGORY else (getR df i).category_route) := by
  unfold postRec scanRec
  by_cases hold : (getR df i).old_text_route_number = none
  · cases h3 : (candidateList i).find? (fun j => pre3B (getR df i) (getR df j)) with
    | none => simp only [hold, if_pos, h3]; split <;> rfl
    | some j => simp only [hold, if_pos, h3]; split <;> rfl
  · simp only [hold, if_neg, ite_false]
    split <;> rfl

/-- Claim C1, counterexample: in `ex1raw` the two records differ in
`departure_station_code_of_rf`, yet after `analyze_routes` record 1's
`old_text_route_number` refers to record 0 (the provenance columns are
populated before the corridor check). -/
theorem corridor_predecessor_cex :
    prepare_data ex1raw = Except.ok (prepOf ex1raw) ∧
    ¬ (getR (analyze_routes (prepOf ex1raw)) 1).departure_station_code_of_rf =
      (getR (analyze_routes (prepOf ex1raw)) 0).departure_station_code_of_rf ∧
    (getR (analyze_routes (prepOf ex1raw)) 1).old_text_route_number =
      some ((getR (analyze_routes (prepOf ex1raw)) 0).text_route_number) :=
  ⟨rfl, by decide, by decide⟩

/-- Claim C1 (amended): two records with different `departure_code` or
different `destination_code` never produce a positive match —
`compare_and_update_routes` returns `False` for such a pair, so a
corridor change never marks the current record as a changed route; the
record's `predecessor_route_id` field, however, may still be populated
from such a candidate. -/
theorem corridor_mismatch_no_match (df : List Route) (i j : Nat)
    (h : ¬ (getR df i).departure_station_code_of_rf =
           (getR df j).departure_station_code_of_rf ∨
         ¬ (getR df i).destination_station_code_of_rf =
           (getR df j).destination_station_code_of_rf) :
    (compare_and_update_routes df i j).snd = false := by
  rw [compare_eq]
  show pureMatchB (getR df i) (getR df j) = false
  unfold pureMatchB corridorB
  rw [attrOf_dep (getR df i), attrOf_dep (getR df j),
    attrOf_dest (getR df i), attrOf_dest (getR df j)]
  rcases h with h | h <;> simp [h]

theorem corridor_mismatch_no_match_witness :
    (compare_and_update_routes (prepOf ex1raw) 1 0).snd = false :=
  corridor_mismatch_no_match (prepOf ex1raw) 1 0 (Or.inl (by decide))

/-- Claim C9: on every `insert_data` invocation the audit export
(`save_to_file`) runs unconditionally before the database insert,
whatever its own outcome (an audit failure is caught inside
`save_to_file`), and the database insert is attempted in both cases;
only an insert failure terminates the process. -/
theorem audit_before_insert (auditOk insertOk : Bool) :
    insert_data auditOk insertOk =
      SinkEvent.audit_write auditOk ::
        (if insertOk then [SinkEvent.db_insert true]
         else [SinkEvent.db_insert false, SinkEvent.exit_fatal]) := by
  cases auditOk <;> cases insertOk <;> rfl

theorem mem_candidateList {j i : Nat} (h : j ∈ candidateList i) : j < i := by
  unfold candidateList at h
  exact List.mem_range.mp (List.mem_reverse.mp h)

/-- Claim C2, counterexample: in `ex2raw`, record 2 scans candidates in
order `[1, 0]`; the first (and only) candidate satisfying all four
match conditions is record 0, yet `old_text_route_number` points to
record 1 (set at the first candidate passing only the threshold
conditions), so the predecessor is not the matched candidate. -/
theorem first_match_predecessor_cex :
    prepare_data ex2raw = Except.ok (prepOf ex2raw) ∧
    candidateList 2 = [1, 0] ∧
    pureMatchB (getR (prepOf ex2raw) 2) (getR (prepOf ex2raw) 1) = false ∧
    pureMatchB (getR (prepOf ex2raw) 2) (getR (prepOf ex2raw) 0) = true ∧
    (getR (analyze_routes (prepOf ex2raw)) 2).category_route = CHANGED_CATEGORY ∧
    (getR (analyze_routes (prepOf ex2raw)) 2).old_text_route_number =
      some ((getR (prepOf ex2raw) 1).text_route_number) ∧
    ¬ (getR (prepOf ex2raw) 1).text_route_number =
      (getR (prepOf ex2raw) 0).text_route_number :=
  ⟨rfl, by decide, by decide, by decide, by decide, by decide, by decide⟩

/-- Claim C2 (amended): scanning candidates newest-to-oldest, the first
candidate satisfying all four conditions sets `category[i] = CHANGED`
and stops the scan, but `predecessor_route_id[i]` is populated at the
first scanned candidate satisfying only conditions 1-3 (different
date, same transport type, at least 3 of 5 key columns equal), which
may be a different, nearer candidate whose corridor does not match. -/
theorem category_and_predecessor_sources (raws : List RawRow) (df : List Route)
    (i : Nat) (hprep : prepare_data raws = Except.ok df)
    (h1 : 1 ≤ i) (h2 : i < df.length) :
    ((((candidateList i).find?
        (fun j => pureMatchB (getR df i) (getR df j))).isSome →
      (getR (analyze_routes df) i).category_route = CHANGED_CATEGORY) ∧
     (∀ j, (candidateList i).find?
        (fun k => pre3B (getR df i) (getR df k)) = some j →
      (getR (analyze_routes df) i).old_text_route_number =
        some ((getR df j).text_route_number))) := by
  have hpost := analyze_routes_getR df i h1 h2
  have hinit := prepare_data_mem_init raws df hprep (getR df i) (getR_mem df i h2)
  constructor
  · intro hsome
    rw [hpost, postRec_category, if_pos hsome]
  · intro j h3
    rw [hpost]
    exact (postRec_assigned df i j hinit.2.1 h3).1

theorem category_and_predecessor_sources_witness :
    (getR (analyze_routes (prepOf ex2raw)) 2).category_route = CHANGED_CATEGORY ∧
    (getR (analyze_routes (prepOf ex2raw)) 2).old_text_route_number =
      some ((getR (prepOf ex2raw) 1).text_route_number) :=
  ⟨(category_and_predecessor_sources ex2raw (prepOf ex2raw) 2 rfl (by decide)
      (by decide)).1 (by decide),
   (category_and_predecessor_sources ex2raw (prepOf ex2raw) 2 rfl (by decide)
      (by decide)).2 1 (by decide)⟩

/-- Claim C3, counterexample: two records identical in all five key
columns on different dates — record 1 is classified `CHANGED` with an
empty `changed_field` (the empty join of an empty changed-column
list), so `changed_fields` is not non-empty whenever the category is
`CHANGED`. -/
theorem changed_field_empty_cex :
    prepare_data ex4raw = Except.ok (prepOf ex4raw) ∧
    (getR (analyze_routes (prepOf ex4raw)) 1).category_route = CHANGED_CATEGORY ∧
    (getR (analyze_routes (prepOf ex4raw)) 1).changed_field = some "" ∧
    changedFields (getR (prepOf ex4raw) 1) (getR (prepOf ex4raw) 0) = [] :=
  ⟨rfl, by decide, by decide, by decide⟩

/-- Claim C3 (amended): after classification, a record's
`changed_field`, when set, is the join of exactly the key columns on
which the record differs from its stored predecessor — the same
earlier-indexed record `j` whose `text_route_number` is held in the
record's `old_text_route_number` — a sublist of the fixed
`key_columns` enumeration (hence in its order); whenever
`category = CHANGED` the `changed_field` column is non-null, but it
may be the empty string (empty list of changed fields) when all five
key columns agree with the predecessor. -/
theorem changed_field_subset_spec (raws : List RawRow) (df : List Route) (i : Nat)
    (hprep : prepare_data raws = Except.ok df) :
    ((getR (analyze_routes df) i).category_route = CHANGED_CATEGORY →
      ¬ (getR (analyze_routes df) i).changed_field = none) ∧
    (∀ s, (getR (analyze_routes df) i).changed_field = some s →
      ∃ j, j < i ∧
        (getR (analyze_routes df) i).old_text_route_number =
          some ((getR df j).text_route_number) ∧
        s = joinFields (changedFields (getR df i) (getR df j)) ∧
        List.Sublist (changedFields (getR df i) (getR df j)) key_columns ∧
        ∀ c ∈ changedFields (getR df i) (getR df j),
          ¬ attrOf (getR df i) c = attrOf (getR df j) c) := by
  by_cases hb : 1 ≤ i ∧ i < df.length
  · have hpost := analyze_routes_getR df i hb.1 hb.2
    have hinit := prepare_data_mem_init raws df hprep (getR df i) (getR_mem df i hb.2)
    constructor
    · intro hcat
      rw [hpost, postRec_category] at hcat
      by_cases hsome : (((candidateList i).find?
          (fun j => pureMatchB (getR df i) (getR df j))).isSome : Bool) = true
      · obtain ⟨k, hk, hpk⟩ := List.find?_isSome.mp hsome
        have hpre : pre3B (getR df i) (getR df k) = true := by
          simp only [pureMatchB, Bool.and_eq_true] at hpk
          exact hpk.1
        have h3some : (((candidateList i).find?
            (fun j => pre3B (getR df i) (getR df j))).isSome : Bool) = true :=
          List.find?_isSome.mpr ⟨k, hk, hpre⟩
        obtain ⟨j, h3⟩ := Option.isSome_iff_exists.mp h3some
        rw [hpost, (postRec_assigned df i j hinit.2.1 h3).2.1]
        simp
      · rw [if_neg hsome, hinit.1] at hcat
        exact absurd hcat (by decide)
    · intro s hs
      rw [hpost] at hs
      cases h3 : (candidateList i).find? (fun k => pre3B (getR df i) (getR df k)) with
      | none =>
        rw [postRec_unassigned df i hinit.2.1 h3, hinit.2.2.1] at hs
        cases hs
      | some j =>
        rw [(postRec_assigned df i j hinit.2.1 h3).2.1] at hs
        refine ⟨j, mem_candidateList (List.mem_of_find?_eq_some h3), ?_,
          (Option.some.inj hs).symm, ?_, ?_⟩
        · rw [hpost]
          exact (postRec_assigned df i j hinit.2.1 h3).1
        · unfold changedFields
          exact List.filter_sublist _
        · intro c hc
          have := (List.mem_filter.mp hc).2
          exact of_decide_eq_true this
  · constructor
    · intro hcat
      exfalso
      have hfresh : getR (analyze_routes df) i = getR df i :=
        analyze_routes_getR_of_fresh df i (by omega)
      by_cases hin : i < df.length
      · have h0 := (prepare_data_mem_init raws df hprep (getR df i)
          (getR_mem df i hin)).1
        rw [hfresh, h0] at hcat
        exact absurd hcat (by decide)
      · rw [hfresh, getR_past_end df i (by omega)] at hcat
        exact absurd hcat (by decide)
    · intro s hs
      exfalso
      have hfresh : getR (analyze_routes df) i = getR df i :=
        analyze_routes_getR_of_fresh df i (by omega)
      by_cases hin : i < df.length
      · have h0 := (prepare_data_mem_init raws df hprep (getR df i)
          (getR_mem df i hin)).2.2.1
        rw [hfresh, h0] at hs
        cases hs
      · rw [hfresh, getR_past_end df i (by omega)] at hs
        cases hs

theorem changed_field_subset_spec_witness :
    ¬ (getR (analyze_routes (prepOf ex4raw)) 1).changed_field = none :=
  (changed_field_subset_spec ex4raw (prepOf ex4raw) 1 rfl).1 (by decide)

/-- Claim C4, counterexample: both records of `ex3raw` have unparsable
dates, so after `prepare_data` their `route_min_date` values are equal
(both null), yet record 1's `old_text_route_number` refers to record 0
— a pair with equal observed dates is linked, and the predecessor's
date is not strictly earlier (it is null). -/
theorem equal_null_date_link_cex :
    prepare_data ex3raw = Except.ok (prepOf ex3raw) ∧
    (getR (analyze_routes (prepOf ex3raw)) 1).route_min_date =
      (getR (analyze_routes (prepOf ex3raw)) 0).route_min_date ∧
    (getR (analyze_routes (prepOf ex3raw)) 1).route_min_date = none ∧
    (getR (analyze_routes (prepOf ex3raw)) 1).old_text_route_number =
      some ((getR (analyze_routes (prepOf ex3raw)) 0).text_route_number) :=
  ⟨rfl, by decide, by decide, by decide⟩

/-- Claim C4 (amended): restricted to records whose own observed date
is non-null, the invariant holds: if such a record's
`old_text_route_number` is set after classification, it refers to an
earlier-indexed record whose (non-null) `route_min_date` is strictly
smaller.  Records with a null date can be linked to a record with an
equal (null) date, so the restriction is necessary. -/
theorem predecessor_date_strictly_earlier (raws : List RawRow) (df : List Route)
    (i : Nat) (rid : String) (di : Nat)
    (hprep : prepare_data raws = Except.ok df)
    (hpred : (getR (analyze_routes df) i).old_text_route_number = some rid)
    (hdate : (getR (analyze_routes df) i).route_min_date = some di) :
    ∃ j dj, j < i ∧
      rid = (getR (analyze_routes df) j).text_route_number ∧
      (getR (analyze_routes df) j).route_min_date = some dj ∧
      dj < di := by
  by_cases hb : 1 ≤ i ∧ i < df.length
  · have hpost := analyze_routes_getR df i hb.1 hb.2
    have hinit := prepare_data_mem_init raws df hprep (getR df i) (getR_mem df i hb.2)
    rw [hpost] at hpred
    cases h3 : (candidateList i).find? (fun k => pre3B (getR df i) (getR df k)) with
    | none =>
      rw [postRec_unassigned df i hinit.2.1 h3, hinit.2.1] at hpred
      cases hpred
    | some j =>
      have hji : j < i := mem_candidateList (List.mem_of_find?_eq_some h3)
      have hrid : rid = (getR df j).text_route_number :=
        (Option.some.inj
          (((postRec_assigned df i j hinit.2.1 h3).1).symm.trans hpred)).symm
      have hpre : pre3B (getR df i) (getR df j) = true := by
        have hb3 := List.find?_some h3
        exact hb3
      have hdateq : dateEq (getR df i).route_min_date (getR df j).route_min_date
          = false := by
        have h' := hpre
        simp only [pre3B, Bool.and_eq_true] at h'
        have hnot := h'.1.1
        cases hde : dateEq (getR df i).route_min_date (getR df j).route_min_date
        · rfl
        · rw [hde] at hnot
          exact absurd hnot (by decide)
      have hdi : (getR df i).route_min_date = some di := by
        have hc := core_fields (analyze_routes_core df i)
        rw [← hc.2.1]
        exact hdate
      have hkey : keyLe (getR df j) (getR df i) = true :=
        pairwise_getR (prepare_data_sorted raws df hprep) hji hb.2
      obtain ⟨dj, hdj, hle⟩ := keyLe_date_le hkey hdi
      have hne : ¬ dj = di := by
        rw [hdi, hdj] at hdateq
        intro he
        rw [he] at hdateq
        simp [dateEq] at hdateq
      have hcj := core_fields (analyze_routes_core df j)
      refine ⟨j, dj, hji, ?_, ?_, by omega⟩
      · rw [hrid]
        exact hcj.1.symm
      · rw [hcj.2.1]
        exact hdj
  · exfalso
    have hfresh : getR (analyze_routes df) i = getR df i :=
      analyze_routes_getR_of_fresh df i (by omega)
    by_cases hin : i < df.length
    · have h0 := (prepare_data_mem_init raws df hprep (getR df i)
        (getR_mem df i hin)).2.1
      rw [hfresh, h0] at hpred
      cases hpred
    · rw [hfresh, getR_past_end df i (by omega)] at hpred
      cases hpred

theorem predecessor_date_strictly_earlier_witness :
    ∃ j dj, j < 1 ∧
      "М_1001" = (getR (analyze_routes (prepOf ex1raw)) j).text_route_number ∧
      (getR (analyze_routes (prepOf ex1raw)) j).route_min_date = some dj ∧
      dj < 20240102 :=
  predecessor_date_strictly_earlier ex1raw (prepOf ex1raw) 1 "М_1001" 20240102 rfl
    (by decide) (by decide)

/-- Claim C5, counterexample: in `ex3raw` both records have unparsable
date text; after normalization record 1's date is null, yet the record
participates in classification (with record 0, also null-dated, as the
candidate) and ends up `CHANGED` with a predecessor — not excluded and
not retained as `NEW`. -/
theorem null_date_participates_cex :
    parseDate "garbage" = none ∧
    prepare_data ex3raw = Except.ok (prepOf ex3raw) ∧
    (getR (prepOf ex3raw) 1).route_min_date = none ∧
    (getR (analyze_routes (prepOf ex3raw)) 1).category_route = CHANGED_CATEGORY ∧
    (getR (analyze_routes (prepOf ex3raw)) 1).old_text_route_number =
      some ((getR (prepOf ex3raw) 0).text_route_number) :=
  ⟨by decide, rfl, by decide, by decide, by decide⟩

/-- Claim C5 (amended): an unparsable `route_min_date` is coerced to a
null date and the record is retained, but it is not excluded from
classification: the equal-date rejection of
`compare_and_update_routes` never fires for a null date (null compares
unequal to every date, including null), so such a record is matched
exactly on the remaining three conditions. -/
theorem null_date_not_excluded :
    (∀ raw : RawRow, parseDate raw.route_min_date = none →
      (toRoute raw).route_min_date = none) ∧
    (∀ (df : List Route) (i j : Nat),
      (getR df i).route_min_date = none →
      (compare_and_update_routes df i j).snd =
        (decide ((getR df i).type_of_transportation =
                 (getR df j).type_of_transportation) &&
         decide (MIN_MATCHING_KEY_THRESHOLD ≤
                 matchCount (getR df i) (getR df j)) &&
         corridorB (getR df i) (getR df j))) := by
  constructor
  · intro raw h
    simp [toRoute, h]
  · intro df i j h
    rw [compare_eq]
    show pureMatchB (getR df i) (getR df j) = _
    unfold pureMatchB pre3B
    rw [h, dateEq_none_left]
    simp [Bool.and_assoc]

theorem null_date_not_excluded_witness :
    (toRoute (mkRaw "М_1001" "garbage" "T" "A" "X" "P" "S" "C")).route_min_date
      = none ∧
    (compare_and_update_routes (prepOf ex3raw) 1 0).snd =
      (decide ((getR (prepOf ex3raw) 1).type_of_transportation =
               (getR (prepOf ex3raw) 0).type_of_transportation) &&
       decide (MIN_MATCHING_KEY_THRESHOLD ≤
               matchCount (getR (prepOf ex3raw) 1) (getR (prepOf ex3raw) 0)) &&
       corridorB (getR (prepOf ex3raw) 1) (getR (prepOf ex3raw) 0)) :=
  ⟨null_date_not_excluded.1 _ (by decide),
   null_date_not_excluded.2 (prepOf ex3raw) 1 0 (by decide)⟩

/-- Claim C6, counterexample: a batch containing a `text_route_number`
without a numeric suffix makes the pipeline abort with an error (the
`uint32` cast raises) — the record is not skipped-and-retained and the
run does not continue to completion. -/
theorem malformed_route_id_aborts_cex :
    run_pipeline ex6raw =
      Except.error "could not convert text_route_number to uint32" := rfl

/-- Claim C6 (amended): a batch containing any record whose `route_id`
lacks a parsable numeric suffix is rejected wholesale:
`prepare_data` fails (modelling the uncaught `ValueError` of
`astype('uint32')`) and the run aborts; there is no per-record
recovery. -/
theorem malformed_route_id_error (raws : List RawRow)
    (h : ∃ r ∈ raws, parseSuffix r.text_route_number = none) :
    prepare_data raws =
      Except.error "could not convert text_route_number to uint32" := by
  have hall : ¬ (raws.all (fun r => (parseSuffix r.text_route_number).isSome))
      = true := by
    intro hall
    obtain ⟨r, hr, hnone⟩ := h
    have h2 := List.all_eq_true.mp hall r hr
    rw [hnone] at h2
    simp at h2
  simp [prepare_data, hall]

theorem malformed_route_id_error_witness :
    prepare_data ex6raw =
      Except.error "could not convert text_route_number to uint32" :=
  malformed_route_id_error ex6raw
    ⟨mkRaw "ABC" "2024-01-01" "T" "A" "X" "P" "S" "C", by decide, by decide⟩

/-- Claim C7: `analyze_routes` is idempotent — a second run on the
already-classified, unmodified output is the identity — and a record
whose `old_text_route_number` is already non-null is never overwritten
by a run of the classifier. -/
theorem analyze_routes_idempotent (df : List Route) :
    analyze_routes (analyze_routes df) = analyze_routes df ∧
    (∀ i, ¬ (getR df i).old_text_route_number = none →
      (getR (analyze_routes df) i).old_text_route_number =
        (getR df i).old_text_route_number) := by
  constructor
  · apply list_ext_getR
    · rw [analyze_routes_length, analyze_routes_length]
    · intro k
      by_cases hk0 : k = 0
      · rw [hk0]
        exact analyze_routes_getR_of_fresh _ 0 (Or.inl rfl)
      · by_cases hk2 : k < df.length
        · have hk1 : 1 ≤ k := by omega
          rw [analyze_routes_getR (analyze_routes df) k hk1
            (by rw [analyze_routes_length]; exact hk2)]
          exact postRec_of_analyzed df k hk1 hk2
        · exact analyze_routes_getR_of_fresh _ k
            (Or.inr (by rw [analyze_routes_length]; omega))
  · intro i hi
    by_cases hb : 1 ≤ i ∧ i < df.length
    · rw [analyze_routes_getR df i hb.1 hb.2]
      exact (postRec_old_text_some_preserved df i hi).1
    · rw [analyze_routes_getR_of_fresh df i (by omega)]

theorem analyze_routes_idempotent_witness :
    analyze_routes (analyze_routes (prepOf ex1raw)) =
      analyze_routes (prepOf ex1raw) ∧
    Route.old_text_route_number
        (getR (analyze_routes (analyze_routes (prepOf ex1raw))) 1) =
      (getR (analyze_routes (prepOf ex1raw)) 1).old_text_route_number :=
  ⟨(analyze_routes_idempotent (prepOf ex1raw)).1,
   (analyze_routes_idempotent (analyze_routes (prepOf ex1raw))).2 1 (by decide)⟩

/-- Claim C8: in every non-empty prepared dataset, record 0 is never
touched by `analyze_routes` (the outer loop starts at index 1 and the
inner loop never writes to a candidate), so it keeps its initial
values: category `NEW` and null provenance columns. -/
theorem record_zero_always_new (raws : List RawRow) (df : List Route)
    (hprep : prepare_data raws = Except.ok df) (hlen : 0 < df.length) :
    getR (analyze_routes df) 0 = getR df 0 ∧
    (getR (analyze_routes df) 0).category_route = NEW_CATEGORY ∧
    (getR (analyze_routes df) 0).old_text_route_number = none ∧
    (getR (analyze_routes df) 0).changed_field = none ∧
    (getR (analyze_routes df) 0).old_value_field = none := by
  have hfresh : getR (analyze_routes df) 0 = getR df 0 :=
    analyze_routes_getR_of_fresh df 0 (Or.inl rfl)
  have hinit := prepare_data_mem_init raws df hprep (getR df 0) (getR_mem df 0 hlen)
  rw [hfresh]
  exact ⟨rfl, hinit.1, hinit.2.1, hinit.2.2.1, hinit.2.2.2⟩

theorem record_zero_always_new_witness :
    (getR (analyze_routes (prepOf ex2raw)) 0).category_route = NEW_CATEGORY :=
  (record_zero_always_new ex2raw (prepOf ex2raw) rfl (by decide)).2.1

/-- Claim C10: after classification of a prepared dataset, each
record's three provenance columns (`old_text_route_number`,
`changed_field`, `old_value_field`) are all null or all non-null (they
are assigned in a single step); when non-null, `changed_field` is the
join of the changed key columns and `old_value_field` the join of the
predecessor's display values for those same columns — lists of equal
length, aligned in the same order. -/
theorem provenance_fields_consistent (raws : List RawRow) (df : List Route)
    (i : Nat) (hprep : prepare_data raws = Except.ok df) :
    ((getR (analyze_routes df) i).old_text_route_number = none ∧
     (getR (analyze_routes df) i).changed_field = none ∧
     (getR (analyze_routes df) i).old_value_field = none) ∨
    (∃ j fs vs, j < i ∧
      (getR (analyze_routes df) i).old_text_route_number =
        some ((getR df j).text_route_number) ∧
      fs = changedFields (getR df i) (getR df j) ∧
      vs = fs.map (fun f => displayOf (getR df j) f) ∧
      fs.length = vs.length ∧
      (getR (analyze_routes df) i).changed_field = some (joinFields fs) ∧
      (getR (analyze_routes df) i).old_value_field = some (joinFields vs)) := by
  by_cases hb : 1 ≤ i ∧ i < df.length
  · have hpost := analyze_routes_getR df i hb.1 hb.2
    have hinit := prepare_data_mem_init raws df hprep (getR df i) (getR_mem df i hb.2)
    cases h3 : (candidateList i).find? (fun k => pre3B (getR df i) (getR df k)) with
    | none =>
      left
      rw [hpost, postRec_unassigned df i hinit.2.1 h3]
      exact ⟨hinit.2.1, hinit.2.2.1, hinit.2.2.2⟩
    | some j =>
      right
      have hass := postRec_assigned df i j hinit.2.1 h3
      refine ⟨j, changedFields (getR df i) (getR df j),
        (changedFields (getR df i) (getR df j)).map
          (fun f => displayOf (getR df j) f),
        mem_candidateList (List.mem_of_find?_eq_some h3), ?_, rfl, rfl,
        (List.length_map _ _).symm, ?_, ?_⟩
      · rw [hpost]; exact hass.1
      · rw [hpost]; exact hass.2.1
      · rw [hpost]; exact hass.2.2
  · left
    have hfresh : getR (analyze_routes df) i = getR df i :=
      analyze_routes_getR_of_fresh df i (by omega)
    rw [hfresh]
    by_cases hin : i < df.length
    · have hinit := prepare_data_mem_init raws df hprep (getR df i)
        (getR_mem df i hin)
      exact ⟨hinit.2.1, hinit.2.2.1, hinit.2.2.2⟩
    · rw [getR_past_end df i (by omega)]
      exact ⟨rfl, rfl, rfl⟩

theorem provenance_fields_consistent_witness :
    ((getR (analyze_routes (prepOf ex1raw)) 0).old_text_route_number = none ∧
     (getR (analyze_routes (prepOf ex1raw)) 0).changed_field = none ∧
     (getR (analyze_routes (prepOf ex1raw)) 0).old_value_field = none) ∨
    (∃ j fs vs, j < 0 ∧
      (getR (analyze_routes (prepOf ex1raw)) 0).old_text_route_number =
        some ((getR (prepOf ex1raw) j).text_route_number) ∧
      fs = changedFields (getR (prepOf ex1raw) 0) (getR (prepOf ex1raw) j) ∧
      vs = fs.map (fun f => displayOf (getR (prepOf ex1raw) j) f) ∧
      fs.length = vs.length ∧
      (getR (analyze_routes (prepOf ex1raw)) 0).changed_field =
        some (joinFields fs) ∧
      (getR (analyze_routes (prepOf ex1raw)) 0).old_value_field =
        some (joinFields vs)) :=
  provenance_fields_consistent ex1raw (prepOf ex1raw) 0 rfl
